import Mathlib

/-!
Shallow embedding of the WorkMonitor repository (two Python front-ends:
`monitorWork.py`, a tkinter GUI, and `monitorWork_server.py`, a Flask
server) together with proofs about the repository-list CRUD operations,
configuration-file persistence, date validation, external-command
batches, and the single-instance lock guard.

Filesystem-dependent predicates (`os.path.isdir(.../.git)`,
`os.path.abspath`, `os.path.expanduser`) are taken as parameters of the
embedded operations, so every theorem quantifies over the environment in
which the Python code would run.
-/

/-- ASCII whitespace, the characters `str.strip()` removes. -/
def isSpaceC (c : Char) : Bool :=
  c = ' ' || c = '\t' || c = '\n' || c = '\x0d' || c = '\x0b' || c = '\x0c'

/-- Drop leading whitespace characters. -/
def dropLeadingWS : List Char → List Char
  | [] => []
  | c :: cs => if isSpaceC c then dropLeadingWS cs else c :: cs

/-- Python `str.strip()` (whitespace trim at both ends). -/
def pyStrip (s : String) : String :=
  ⟨dropLeadingWS ((dropLeadingWS s.data.reverse).reverse)⟩

/-- One repository entry of the persisted list: the Python dict
`\x7b'path': ..., 'selected': ...\x7d`. -/
structure RepoEntry where
  path : String
  selected : Bool
deriving Repr, DecidableEq

/-- The sequence of `path` values of a repository list. -/
def pathsOf (rs : List RepoEntry) : List String := rs.map RepoEntry.path

/-- No two entries of the list share a `path` value. -/
def pathsDistinct (rs : List RepoEntry) : Prop := (pathsOf rs).Nodup

instance (rs : List RepoEntry) : Decidable (pathsDistinct rs) := by
  unfold pathsDistinct; infer_instance

/-- JSON values, the data `json.load` / `json.dump` move between the
configuration file and Python memory. -/
inductive Json where
  | null
  | bool (b : Bool)
  | num (n : Int)
  | str (s : String)
  | arr (xs : List Json)
  | obj (kvs : List (String × Json))
deriving Repr

/-- Python `dict.get k default` on the association list of a JSON object
(first binding wins, as in a Python dict built left to right). -/
def lookupKey (kvs : List (String × Json)) (k : String) : Option Json :=
  match kvs with
  | [] => none
  | (k', v) :: rest => if k' = k then some v else lookupKey rest k

/-- The observable states of the configuration file when `load_repositories`
runs: absent, unreadable, syntactically invalid JSON, or a parsed JSON
document. -/
inductive FileState where
  | missing
  | readError
  | invalidJson
  | parsed (j : Json)

/-- Outcome of `load_repositories`: a returned Python value, or an
uncaught exception (the `except` clause catches only `json.JSONDecodeError`
and `IOError`, so `AttributeError` from `data.get` on a non-dict escapes). -/
inductive LoadResult where
  | ok (j : Json)
  | raised

/-- `load_repositories` of `monitorWork_server.py` lines 56-65 (the GUI
method at lines 388-398 is textually identical up to assignment target):
missing file, unreadable file and invalid JSON all yield `[]`; a parsed
document is queried with `data.get('repositories', [])`, which raises
`AttributeError` unless the top level is an object. -/
def load_repositories : FileState → LoadResult
  | .missing => .ok (.arr [])
  | .readError => .ok (.arr [])
  | .invalidJson => .ok (.arr [])
  | .parsed (.obj kvs) => .ok ((lookupKey kvs "repositories").getD (.arr []))
  | .parsed _ => .raised

/-- The JSON encoding `json.dump` gives one repository entry. -/
def encodeEntry (r : RepoEntry) : Json :=
  .obj [("path", .str r.path), ("selected", .bool r.selected)]

/-- `save_repositories`: writes the document
`\x7b'repositories': repositories\x7d` to the configuration file
(`monitorWork_server.py` lines 67-76, `monitorWork.py` lines 400-407). -/
def save_repositories (rs : List RepoEntry) : FileState :=
  .parsed (.obj [("repositories", .arr (rs.map encodeEntry))])

/-- Reading one schema-conforming entry back from its JSON form. -/
def decodeEntry : Json → Option RepoEntry
  | .obj [("path", .str p), ("selected", .bool b)] => some ⟨p, b⟩
  | _ => none

/-- Reading a whole schema-conforming list back from its JSON form. -/
def decodeEntries : List Json → Option (List RepoEntry)
  | [] => some []
  | j :: js =>
    match decodeEntry j, decodeEntries js with
    | some r, some rs => some (r :: rs)
    | _, _ => none

/-- Result of a server endpoint: a JSON payload or an HTTP error with a
status code and message. -/
inductive ApiResult (α : Type) where
  | ok (val : α)
  | err (status : Nat) (msg : String)
deriving Repr, DecidableEq

/-- `POST /api/repositories` (`monitorWork_server.py` lines 162-199).
`isGit p` models `os.path.isdir(os.path.join(p, '.git'))`; `norm` models
`os.path.abspath(os.path.expanduser(·))`. On success the new list is
saved; on error the stored list is untouched. -/
def add_repository (isGit : String → Bool) (norm : String → String)
    (stored : List RepoEntry) (raw : String) : ApiResult (List RepoEntry) :=
  if pyStrip raw = "" then .err 400 "Path is required"
  else if isGit (norm (pyStrip raw)) = false then
    .err 400 (String.append (norm (pyStrip raw)) " is not a git repository")
  else if stored.any (fun r => r.path == norm (pyStrip raw)) then
    .err 400 "Repository already in list"
  else .ok (stored ++ [⟨norm (pyStrip raw), false⟩])

/-- `DELETE /api/repositories` (`monitorWork_server.py` lines 201-214):
an empty path is a 400 error; otherwise entries whose `path` equals the
raw request path (no strip, no normalization) are filtered out and the
result saved and returned. -/
def remove_repository (stored : List RepoEntry) (raw : String) :
    ApiResult (List RepoEntry) :=
  if raw = "" then .err 400 "Path is required"
  else .ok (stored.filter (fun r => r.path ≠ raw))

/-- `POST /api/repositories/clear` (`monitorWork_server.py` lines 216-229):
saves the empty list. -/
def clear_repositories : List RepoEntry := []

/-- `POST /api/repositories/update` (`monitorWork_server.py` lines
286-293): saves the request's `repositories` value verbatim, with no
validation or duplicate check. -/
def update_repositories (reqRepos : List RepoEntry) : List RepoEntry :=
  reqRepos

/-- One iteration of the `batch-add` loop (`monitorWork_server.py` lines
253-272) acting on the state (current list, errors, added count). The
Python code keeps a set `existing_paths` synchronized with the list's
`path` values; membership in it is modelled by the equivalent scan of the
current list. -/
def batchAddStep (isGit : String → Bool) (norm : String → String)
    (st : List RepoEntry × List String × Nat) (raw : String) :
    List RepoEntry × List String × Nat :=
  if pyStrip raw = "" then st
  else if isGit (norm (pyStrip raw)) = false then
    (st.1, st.2.1 ++ [String.append (norm (pyStrip raw)) " is not a git repository"],
     st.2.2)
  else if st.1.any (fun r => r.path == norm (pyStrip raw)) then st
  else (st.1 ++ [⟨norm (pyStrip raw), false⟩], st.2.1, st.2.2 + 1)

/-- `POST /api/repositories/batch-add` (`monitorWork_server.py` lines
231-284): folds the loop over the request's path list starting from the
stored list, then saves; returns the final list, the per-path error
messages and the number of entries added. -/
def batch_add_repositories (isGit : String → Bool) (norm : String → String)
    (stored : List RepoEntry) (paths : List String) :
    List RepoEntry × List String × Nat :=
  paths.foldl (batchAddStep isGit norm) (stored, [], 0)

/-- A tkinter dialog shown by the GUI. -/
inductive Dialog where
  | errorD (title msg : String)
  | warningD (msg : String)
  | infoD (msg : String)
deriving Repr, DecidableEq

/-- `WorkMonitorGUI.add_repository` (`monitorWork.py` lines 203-228).
`input` is the directory-dialog / text-dialog result (`none` models a
cancelled dialog). The GUI applies `os.path.abspath` (no `expanduser`),
then the `.git` check, then the duplicate scan. Returns the resulting
list and the dialogs shown. -/
def gui_add_repository (isGit : String → Bool) (absF : String → String)
    (repos : List RepoEntry) (input : Option String) :
    List RepoEntry × List Dialog :=
  match input with
  | none => (repos, [])
  | some path =>
    if isGit (absF path) = false then
      (repos, [.errorD "Error" (String.append (absF path) " is not a git repository.")])
    else if repos.any (fun r => r.path == absF path) then
      (repos, [.warningD "Repository already in list."])
    else (repos ++ [⟨absF path, false⟩], [])

/-- `WorkMonitorGUI.remove_repository` (`monitorWork.py` lines 230-244).
`treeSelection` is the list of paths read from the selected tree rows; an
empty selection only shows a warning. Each selected path is filtered out
of the list in turn. -/
def gui_remove_repository (repos : List RepoEntry)
    (treeSelection : List String) : List RepoEntry × List Dialog :=
  if treeSelection = [] then
    (repos, [.warningD "Please select a repository to remove."])
  else
    (treeSelection.foldl (fun rs p => rs.filter (fun r => r.path ≠ p)) repos, [])

/-- ASCII decimal digit test, as matched by the date-format patterns. -/
def isDig (c : Char) : Bool := '0' ≤ c && c ≤ '9'

/-- Numeric value of a decimal digit sequence. -/
def digitsVal (cs : List Char) : Nat :=
  cs.foldl (fun n c => n * 10 + (c.toNat - '0'.toNat)) 0

/-- Split a character sequence at every dash, keeping empty pieces (the
dash-separated components `strptime` matches against `%Y-%m-%d`). -/
def splitOnDash : List Char → List (List Char)
  | [] => [[]]
  | c :: rest =>
    if c = '-' then [] :: splitOnDash rest
    else
      match splitOnDash rest with
      | [] => [[c]]
      | piece :: pieces => (c :: piece) :: pieces

/-- Gregorian leap-year rule used by `datetime`. -/
def isLeap (y : Nat) : Bool := y % 4 == 0 && (y % 100 != 0 || y % 400 == 0)

/-- Days in a month, as `datetime` validates the day component. -/
def daysInMonth (y m : Nat) : Nat :=
  if m = 2 then (if isLeap y then 29 else 28)
  else if m = 4 ∨ m = 6 ∨ m = 9 ∨ m = 11 then 30
  else 31

/-- `datetime.strptime(s, "%Y-%m-%d")` succeeding: exactly three
dash-separated components; a four-digit year; a one- or two-digit month
in 1..12; a one- or two-digit day in 1..31 that exists in that month;
the whole string consumed; and the resulting year accepted by
`datetime` (MINYEAR is 1, so year 0000 raises `ValueError`). -/
def validDate (s : String) : Bool :=
  match splitOnDash s.data with
  | [ys, ms, ds] =>
    ys.length == 4 && ys.all isDig &&
    (ms.length == 1 || ms.length == 2) && ms.all isDig &&
    (ds.length == 1 || ds.length == 2) && ds.all isDig &&
    1 ≤ digitsVal ys && 1 ≤ digitsVal ms && digitsVal ms ≤ 12 &&
    1 ≤ digitsVal ds && digitsVal ds ≤ daysInMonth (digitsVal ys) (digitsVal ms)
  | _ => false

/-- An external command invocation built by the application. -/
inductive Cmd where
  | startW (repo : String)
  | stopW (repo : String)
  | tabulateW (outputFile startD endD : String) (repos : List String)
deriving Repr, DecidableEq

/-- Outcome of one `subprocess.run` call when the executable exists:
exit 0, non-zero exit with a standard-error text, or a timeout. -/
inductive RunOutcome where
  | success
  | fail (stderr : String)
  | timeout
deriving Repr, DecidableEq

/-- The execution environment for the external commands: whether the
executable is on the `PATH` (a `FileNotFoundError` is raised at every
call when it is not), and the per-repository outcome when it is. -/
structure ExecEnv where
  cmdExists : Bool
  run : String → RunOutcome

/-- The per-repository loop shared by the server's `start_work` and
`stop_work` endpoints (`monitorWork_server.py` lines 307-322 and
342-357). Returns the accumulated `results`, `errors`, the repositories
actually passed to `subprocess.run`, and whether the loop was aborted by
`FileNotFoundError` (which returns from the handler at once). -/
def runBatchServer (env : ExecEnv) :
    List String → List String × List String × List String × Bool
  | [] => ([], [], [], false)
  | p :: rest =>
    if env.cmdExists then
      match env.run p with
      | .success =>
        let r := runBatchServer env rest
        (p :: r.1, r.2.1, p :: r.2.2.1, r.2.2.2)
      | .fail e =>
        let r := runBatchServer env rest
        (r.1, (String.append p (String.append ": " e)) :: r.2.1,
         p :: r.2.2.1, r.2.2.2)
      | .timeout =>
        let r := runBatchServer env rest
        (r.1, (String.append p ": Timeout") :: r.2.1, p :: r.2.2.1, r.2.2.2)
    else ([], [], [p], true)

/-- The JSON body of a successful start/stop response. -/
structure WorkResp where
  success : Nat
  errors : List String
  results : List String
deriving Repr, DecidableEq

/-- `POST /api/start-work` and `POST /api/stop-work`
(`monitorWork_server.py` lines 295-328 and 330-363, identical up to the
command name `cmdName`). Second component: the repositories attempted. -/
def work_endpoint (env : ExecEnv) (cmdName : String) (repos : List String) :
    ApiResult WorkResp × List String :=
  if repos = [] then (.err 400 "No repositories selected", [])
  else if (runBatchServer env repos).2.2.2 then
    (.err 500 (String.append cmdName
      " command not found. Please ensure it is installed and in your PATH."),
     (runBatchServer env repos).2.2.1)
  else
    (.ok ⟨(runBatchServer env repos).1.length, (runBatchServer env repos).2.1,
      (runBatchServer env repos).1⟩,
     (runBatchServer env repos).2.2.1)

/-- The server `start_work` endpoint. -/
def start_work (env : ExecEnv) (repos : List String) :
    ApiResult WorkResp × List String :=
  work_endpoint env "startWork" repos

/-- The server `stop_work` endpoint. -/
def stop_work (env : ExecEnv) (repos : List String) :
    ApiResult WorkResp × List String :=
  work_endpoint env "stopWork" repos

/-- The per-repository loop shared by the GUI's `start_work` and
`stop_work` (`monitorWork.py` lines 286-306 and 317-337): a non-zero
exit or a timeout shows an error dialog and the loop continues; a
`FileNotFoundError` shows a dialog and returns from the method. Returns
the dialogs shown, the repositories attempted, and the aborted flag. -/
def guiWorkLoop (env : ExecEnv) (verb : String) :
    List String → List Dialog × List String × Bool
  | [] => ([], [], false)
  | p :: rest =>
    if env.cmdExists then
      match env.run p with
      | .success =>
        let r := guiWorkLoop env verb rest
        (r.1, p :: r.2.1, r.2.2)
      | .fail e =>
        let r := guiWorkLoop env verb rest
        (.errorD "Error" (String.append "Failed to " (String.append verb
            (String.append " work on " (String.append p
              (String.append ": " e))))) :: r.1,
         p :: r.2.1, r.2.2)
      | .timeout =>
        let r := guiWorkLoop env verb rest
        (.errorD "Error" (String.append "Timeout " (String.append verb
            (String.append "ing work on " p))) :: r.1,
         p :: r.2.1, r.2.2)
    else
      ([.errorD "Error" "command not found. Please ensure it is installed and in your PATH."],
       [p], true)

/-- The selected paths of the GUI list
(`WorkMonitorGUI.get_selected_repositories`, `monitorWork.py` lines
260-262). -/
def get_selected_repositories (repos : List RepoEntry) : List String :=
  (repos.filter RepoEntry.selected).map RepoEntry.path

/-- `WorkMonitorGUI.start_work` / `stop_work` (`monitorWork.py` lines
279-308 and 310-339): empty selection shows a warning; otherwise the
loop runs, and the final success dialog is shown only when the loop was
not aborted by a missing command. Second component: attempted paths. -/
def gui_work (env : ExecEnv) (verb : String) (repos : List RepoEntry) :
    List Dialog × List String :=
  if get_selected_repositories repos = [] then
    ([.warningD "Please select at least one repository."], [])
  else if (guiWorkLoop env verb (get_selected_repositories repos)).2.2 then
    ((guiWorkLoop env verb (get_selected_repositories repos)).1,
     (guiWorkLoop env verb (get_selected_repositories repos)).2.1)
  else
    ((guiWorkLoop env verb (get_selected_repositories repos)).1 ++
      [.infoD (String.append verb "ed work.")],
     (guiWorkLoop env verb (get_selected_repositories repos)).2.1)

/-- The request body of the tabulate endpoint. -/
structure TabRequest where
  repositories : List String
  startDate : String
  endDate : String
  outputFile : String

/-- Response of the tabulate endpoint. -/
inductive TabResp where
  | errResp (status : Nat) (msg : String)
  | okResp (outputFile : String)
deriving Repr, DecidableEq

/-- `POST /api/tabulate-work` (`monitorWork_server.py` lines 365-416):
empty selection, missing dates, a date failing `strptime`, and a missing
output file are each rejected before any command is built; otherwise the
`tabulateWork` command is spawned once. `expandAbs` models
`os.path.abspath(os.path.expanduser(·))` on the output file. Second
component: the subprocess spawned, if any. -/
def tabulate_work (outcome : RunOutcome) (expandAbs : String → String)
    (req : TabRequest) : TabResp × Option Cmd :=
  if req.repositories = [] then
    (.errResp 400 "No repositories selected", none)
  else if req.startDate = "" ∨ req.endDate = "" then
    (.errResp 400 "Start date and end date are required", none)
  else if ¬ (validDate req.startDate ∧ validDate req.endDate) then
    (.errResp 400 "Invalid date format. Please use YYYY-MM-DD format.", none)
  else if req.outputFile = "" then
    (.errResp 400 "Output file is required", none)
  else
    let out := expandAbs req.outputFile
    let c := Cmd.tabulateW out req.startDate req.endDate req.repositories
    match outcome with
    | .success => (.okResp out, some c)
    | .fail e => (.errResp 500 (String.append "Failed to generate work report: " e), some c)
    | .timeout => (.errResp 500 "Timeout generating work report", some c)

/-- `WorkMonitorGUI.validate_dates` (`monitorWork.py` lines 264-277):
strips both entry strings, then parses each with
`strptime(s, "%Y-%m-%d")`; on failure an error dialog is shown and
`(None, None)` returned. -/
def validate_dates (startRaw endRaw : String) :
    Option (String × String) × List Dialog :=
  if validDate (pyStrip startRaw) ∧ validDate (pyStrip endRaw) then
    (some (pyStrip startRaw, pyStrip endRaw), [])
  else
    (none, [.errorD "Error" "Invalid date format. Please use YYYY-MM-DD format."])

/-- `WorkMonitorGUI.tabulate_work` (`monitorWork.py` lines 341-386):
empty selection warns and returns; invalid dates show a dialog and
return; a cancelled save dialog (`chosenOutput = none`) returns; only
then is the `tabulateWork` command spawned. Returns the dialogs shown
and the subprocess spawned, if any. -/
def gui_tabulate_work (outcome : RunOutcome) (repos : List RepoEntry)
    (startRaw endRaw : String) (chosenOutput : Option String) :
    List Dialog × Option Cmd :=
  if get_selected_repositories repos = [] then
    ([.warningD "Please select at least one repository."], none)
  else
    match validate_dates startRaw endRaw with
    | (none, ds) => (ds, none)
    | (some (sd, ed), ds) =>
      match chosenOutput with
      | none => (ds, none)
      | some out =>
        match outcome with
        | .success =>
          (ds ++ [.infoD (String.append "Work report saved to " out)],
           some (Cmd.tabulateW out sd ed (get_selected_repositories repos)))
        | .fail e =>
          (ds ++ [.errorD "Error" (String.append "Failed to generate work report: " e)],
           some (Cmd.tabulateW out sd ed (get_selected_repositories repos)))
        | .timeout =>
          (ds ++ [.errorD "Error" "Timeout generating work report"],
           some (Cmd.tabulateW out sd ed (get_selected_repositories repos)))

/-- One repository found by the folder scan. -/
structure ScannedRepo where
  name : String
  path : String
deriving Repr, DecidableEq

/-- The filesystem environment of the scan endpoint. `norm` models
`os.path.abspath(os.path.expanduser(·))`, `home` is `str(Path.home())`,
`parentDir` is `os.path.dirname`, `listing` is `os.listdir`. -/
structure ScanEnv where
  norm : String → String
  home : String
  pathExists : String → Bool
  isDir : String → Bool
  parentDir : String → String
  listing : String → List String

/-- `os.path.join` for a relative second component. -/
def joinPath (d item : String) : String :=
  String.append d (String.append "/" item)

/-- Character-sequence prefix test. -/
def isPrefixChars : List Char → List Char → Bool
  | [], _ => true
  | _ :: _, [] => false
  | a :: as, b :: bs => a = b && isPrefixChars as bs

/-- Python `str.startswith`. -/
def startsWithStr (s pre : String) : Bool := isPrefixChars pre.data s.data

/-- Insert a scanned repository into a name-sorted list (models the
`sort` by `name` at the end of the scan). -/
def insertByName (x : ScannedRepo) : List ScannedRepo → List ScannedRepo
  | [] => [x]
  | y :: ys => if y.name < x.name then y :: insertByName x ys else x :: y :: ys

/-- Name-sorted scan result list. -/
def sortByName (xs : List ScannedRepo) : List ScannedRepo :=
  xs.foldr insertByName []

/-- Response of the scan endpoint. -/
inductive ScanResp where
  | errResp (status : Nat) (msg : String)
  | okResp (folderPath : String) (repos : List ScannedRepo)
deriving Repr, DecidableEq

/-- `POST /api/scan-repositories` (`monitorWork_server.py` lines
83-154): an empty stripped folder path is a 400 error; the normalized
path must start with the home directory or a 403 access-denied error is
returned; a non-existent path is a 400 error (with suggestions gathered
by listing the parent directory when that is a directory); a non-directory
is a 400 error; otherwise the folder is listed and its git
sub-directories returned sorted by name. Second component: the
directories passed to `os.listdir`. -/
def scan_repositories (env : ScanEnv) (folderRaw : String) :
    ScanResp × List String :=
  if pyStrip folderRaw = "" then (.errResp 400 "Folder path is required", [])
  else if startsWithStr (env.norm (pyStrip folderRaw)) env.home = false then
    (.errResp 403 "Access denied: Cannot scan outside home directory", [])
  else if env.pathExists (env.norm (pyStrip folderRaw)) = false then
    if env.isDir (env.parentDir (env.norm (pyStrip folderRaw))) then
      (.errResp 400 (String.append "Path does not exist: "
        (env.norm (pyStrip folderRaw))),
       [env.parentDir (env.norm (pyStrip folderRaw))])
    else
      (.errResp 400 (String.append "Path does not exist: "
        (env.norm (pyStrip folderRaw))), [])
  else if env.isDir (env.norm (pyStrip folderRaw)) = false then
    (.errResp 400 (String.append "Path is not a directory: "
      (env.norm (pyStrip folderRaw))), [])
  else
    (.okResp (env.norm (pyStrip folderRaw))
      (sortByName (((env.listing (env.norm (pyStrip folderRaw))).filter
        (fun item => env.isDir (joinPath (env.norm (pyStrip folderRaw)) item) &&
          env.isDir (joinPath (joinPath (env.norm (pyStrip folderRaw)) item) ".git"))).map
        (fun item =>
          ScannedRepo.mk item (joinPath (env.norm (pyStrip folderRaw)) item)))),
     [env.norm (pyStrip folderRaw)])

/-- Outcome of the non-blocking `fcntl.flock` attempt in
`SingleInstance.__enter__`: acquired, or refused because another live
process holds the exclusive lock (an `IOError`/`OSError`). -/
inductive FlockOutcome where
  | acquired
  | held
deriving Repr, DecidableEq

/-- What `SingleInstance.__enter__` does after its single lock attempt:
proceed with the pid written to the lock file, or notify the user and
call `sys.exit` with the given code. -/
inductive EnterResult where
  | running (pidWritten : Bool)
  | exited (code : Nat) (notifiedAlreadyRunning : Bool)
deriving Repr, DecidableEq

/-- `SingleInstance.__enter__` of both front-ends (`monitorWork.py`
lines 45-60, `monitorWork_server.py` lines 32-44): one non-blocking
lock attempt; on success the pid is written and the application
proceeds; on contention an already-running notification is surfaced
(GUI error dialog / server console message) and `sys.exit(1)` runs.
Second component: the number of lock attempts made. -/
def singleInstanceEnter (outcome : FlockOutcome) : EnterResult × Nat :=
  match outcome with
  | .acquired => (.running true, 1)
  | .held => (.exited 1 true, 1)

/-! ## Helper lemmas -/

lemma mem_pathsOf {rs : List RepoEntry} {p : String} :
    p ∈ pathsOf rs ↔ ∃ r ∈ rs, r.path = p := by
  unfold pathsOf
  constructor
  · intro hp
    rcases List.mem_map.mp hp with ⟨r, hr, hrp⟩
    exact ⟨r, hr, hrp⟩
  · rintro ⟨r, hr, hrp⟩
    exact List.mem_map.mpr ⟨r, hr, hrp⟩

lemma anyPath_eq_false {stored : List RepoEntry} {p : String}
    (h : stored.any (fun r => r.path == p) = false) : p ∉ pathsOf stored := by
  intro hp
  rw [List.any_eq_false] at h
  rcases mem_pathsOf.mp hp with ⟨r, hr, hrp⟩
  exact h r hr (by simp [hrp])

lemma anyPath_of_mem {stored : List RepoEntry} {p : String}
    (hp : p ∈ pathsOf stored) : stored.any (fun r => r.path == p) = true := by
  rw [List.any_eq_true]
  rcases mem_pathsOf.mp hp with ⟨r, hr, hrp⟩
  exact ⟨r, hr, by simp [hrp]⟩

lemma pathsOf_append (rs : List RepoEntry) (e : RepoEntry) :
    pathsOf (rs ++ [e]) = pathsOf rs ++ [e.path] := by
  simp [pathsOf]

lemma pathsDistinct_append {rs : List RepoEntry} {e : RepoEntry}
    (h : pathsDistinct rs) (he : e.path ∉ pathsOf rs) :
    pathsDistinct (rs ++ [e]) := by
  unfold pathsDistinct at h ⊢
  rw [pathsOf_append]
  simp [List.nodup_append, h, he]

lemma pathsDistinct_filter {rs : List RepoEntry} (h : pathsDistinct rs)
    (f : RepoEntry → Bool) : pathsDistinct (rs.filter f) := by
  unfold pathsDistinct pathsOf at *
  exact h.sublist ((List.filter_sublist rs).map RepoEntry.path)

lemma batchAddStep_distinct (isGit : String → Bool) (norm : String → String)
    (st : List RepoEntry × List String × Nat) (raw : String)
    (h : pathsDistinct st.1) :
    pathsDistinct (batchAddStep isGit norm st raw).1 := by
  unfold batchAddStep
  split_ifs with h1 h2 h3
  · exact h
  · exact h
  · exact h
  · exact pathsDistinct_append h (anyPath_eq_false (by simpa using h3))

lemma batchFold_distinct (isGit : String → Bool) (norm : String → String)
    (paths : List String) :
    ∀ st : List RepoEntry × List String × Nat, pathsDistinct st.1 →
      pathsDistinct (paths.foldl (batchAddStep isGit norm) st).1 := by
  induction paths with
  | nil => intro st h; exact h
  | cons p ps ih =>
    intro st h
    exact ih _ (batchAddStep_distinct isGit norm st p h)

lemma batchAddStep_mono (isGit : String → Bool) (norm : String → String)
    (st : List RepoEntry × List String × Nat) (raw : String) :
    ∃ suf, (batchAddStep isGit norm st raw).1 = st.1 ++ suf := by
  unfold batchAddStep
  split_ifs with h1 h2 h3
  · exact ⟨[], by simp⟩
  · exact ⟨[], by simp⟩
  · exact ⟨[], by simp⟩
  · exact ⟨[⟨norm (pyStrip raw), false⟩], rfl⟩

lemma batchFold_mono (isGit : String → Bool) (norm : String → String)
    (paths : List String) :
    ∀ st : List RepoEntry × List String × Nat,
      ∃ suf, (paths.foldl (batchAddStep isGit norm) st).1 = st.1 ++ suf := by
  induction paths with
  | nil => intro st; exact ⟨[], by simp⟩
  | cons p ps ih =>
    intro st
    rcases batchAddStep_mono isGit norm st p with ⟨s1, hs1⟩
    rcases ih (batchAddStep isGit norm st p) with ⟨s2, hs2⟩
    exact ⟨s1 ++ s2, by simp [List.foldl_cons, hs2, hs1]⟩

lemma batchFold_reaches (isGit : String → Bool) (norm : String → String)
    (paths : List String) :
    ∀ st : List RepoEntry × List String × Nat, ∀ p ∈ paths,
      pyStrip p ≠ "" → isGit (norm (pyStrip p)) = true →
      norm (pyStrip p) ∈ pathsOf (paths.foldl (batchAddStep isGit norm) st).1 := by
  induction paths with
  | nil => intro st p hp; cases hp
  | cons q qs ih =>
    intro st p hp hne hgit
    rcases List.mem_cons.mp hp with hpq | hpqs
    · have hstep : norm (pyStrip p) ∈ pathsOf (batchAddStep isGit norm st q).1 := by
        rw [hpq] at hne hgit ⊢
        unfold batchAddStep
        split_ifs with h1 h2 h3
        · exact absurd h1 hne
        · exact absurd hgit (by simpa using h2)
        · rcases List.any_eq_true.mp h3 with ⟨r, hr, hrp⟩
          exact mem_pathsOf.mpr ⟨r, hr, by simpa using hrp⟩
        · rw [pathsOf_append]
          exact List.mem_append_right _ (by simp)
      rcases batchFold_mono isGit norm qs (batchAddStep isGit norm st q) with ⟨suf, hsuf⟩
      rw [List.foldl_cons, hsuf]
      unfold pathsOf at hstep ⊢
      rw [List.map_append]
      exact List.mem_append_left _ hstep
    · rw [List.foldl_cons]
      exact ih (batchAddStep isGit norm st q) p hpqs hne hgit

lemma batchFold_skips (isGit : String → Bool) (norm : String → String)
    (paths : List String) :
    ∀ st : List RepoEntry × List String × Nat,
      (∀ p ∈ paths, pyStrip p = "" ∨ isGit (norm (pyStrip p)) = false ∨
        norm (pyStrip p) ∈ pathsOf st.1) →
      (paths.foldl (batchAddStep isGit norm) st).1 = st.1 ∧
      (paths.foldl (batchAddStep isGit norm) st).2.2 = st.2.2 := by
  induction paths with
  | nil => intro st _; exact ⟨rfl, rfl⟩
  | cons q qs ih =>
    intro st hcond
    have hq := hcond q (List.mem_cons_self q qs)
    have hstep : (batchAddStep isGit norm st q).1 = st.1 ∧
        (batchAddStep isGit norm st q).2.2 = st.2.2 := by
      unfold batchAddStep
      split_ifs with h1 h2 h3
      · exact ⟨rfl, rfl⟩
      · exact ⟨rfl, rfl⟩
      · exact ⟨rfl, rfl⟩
      · rcases hq with h | h | h
        · exact absurd h h1
        · exact absurd h (by simpa using h2)
        · exact absurd (anyPath_of_mem h) h3
    rw [List.foldl_cons]
    have hrest := ih (batchAddStep isGit norm st q) (by
      intro p hp
      rcases hcond p (List.mem_cons_of_mem q hp) with h | h | h
      · exact Or.inl h
      · exact Or.inr (Or.inl h)
      · exact Or.inr (Or.inr (hstep.1 ▸ h)))
    exact ⟨hrest.1.trans hstep.1, hrest.2.trans hstep.2⟩

lemma batchFold_no_errors (isGit : String → Bool) (norm : String → String)
    (paths : List String) :
    ∀ st : List RepoEntry × List String × Nat,
      (∀ p ∈ paths, pyStrip p ≠ "" → isGit (norm (pyStrip p)) = true) →
      (paths.foldl (batchAddStep isGit norm) st).2.1 = st.2.1 := by
  induction paths with
  | nil => intro st _; rfl
  | cons q qs ih =>
    intro st hcond
    have hstep : (batchAddStep isGit norm st q).2.1 = st.2.1 := by
      unfold batchAddStep
      split_ifs with h1 h2 h3
      · rfl
      · exact absurd (hcond q (List.mem_cons_self q qs) h1) (by simpa using h2)
      · rfl
      · rfl
    rw [List.foldl_cons]
    exact (ih (batchAddStep isGit norm st q)
      (fun p hp => hcond p (List.mem_cons_of_mem q hp))).trans hstep

lemma filter_path_ne_of_not_mem {stored : List RepoEntry} {raw : String}
    (hmem : raw ∉ pathsOf stored) :
    stored.filter (fun r => r.path ≠ raw) = stored := by
  apply List.filter_eq_self.mpr
  intro r hr
  rw [decide_eq_true_eq]
  intro heq
  exact hmem (mem_pathsOf.mpr ⟨r, hr, heq⟩)

lemma guiRemoveFold (treeSel : List String) :
    ∀ repos : List RepoEntry, (∀ q ∈ treeSel, q ∉ pathsOf repos) →
      treeSel.foldl (fun rs p => rs.filter (fun r => r.path ≠ p)) repos = repos := by
  induction treeSel with
  | nil => intro repos _; rfl
  | cons q qs ih =>
    intro repos hcond
    rw [List.foldl_cons,
      filter_path_ne_of_not_mem (hcond q (List.mem_cons_self q qs))]
    exact ih repos (fun x hx => hcond x (List.mem_cons_of_mem q hx))

/-! ## Claim theorems -/

/-- C1, counterexample: the server `update` endpoint persists the
client's `repositories` value verbatim, so a request whose list repeats
the path `/a` is stored with two entries sharing that `path` value — the
claim that every configuration-writing operation (including server
update) preserves pairwise-distinct paths is false. -/
theorem c1_counterexample :
    ¬ pathsDistinct (update_repositories [⟨"/a", false⟩, ⟨"/a", true⟩]) := by
  decide

/-- C1 (amended): GUI add, server add, server batch-add, server remove
and server clear each preserve the invariant that all `path` values of
the stored list are pairwise distinct; the server update endpoint does
not (it writes the request list verbatim, see the counterexample). -/
theorem c1_write_ops_preserve_path_distinct
    (isGit : String → Bool) (norm absF : String → String)
    (stored : List RepoEntry) (hd : pathsDistinct stored) :
    (∀ raw l, add_repository isGit norm stored raw = .ok l → pathsDistinct l)
    ∧ (∀ paths, pathsDistinct (batch_add_repositories isGit norm stored paths).1)
    ∧ (∀ raw l, remove_repository stored raw = .ok l → pathsDistinct l)
    ∧ pathsDistinct clear_repositories
    ∧ (∀ input, pathsDistinct (gui_add_repository isGit absF stored input).1) := by
  refine ⟨?_, ?_, ?_, ?_, ?_⟩
  · intro raw l h
    unfold add_repository at h
    split_ifs at h with h1 h2 h3
    cases h
    exact pathsDistinct_append hd (anyPath_eq_false (by simpa using h3))
  · intro paths
    exact batchFold_distinct isGit norm paths (stored, [], 0) hd
  · intro raw l h
    unfold remove_repository at h
    split_ifs at h with h1
    cases h
    exact pathsDistinct_filter hd _
  · decide
  · intro input
    cases input with
    | none => exact hd
    | some path =>
      simp only [gui_add_repository]
      split_ifs with h1 h2
      · exact hd
      · exact hd
      · exact pathsDistinct_append hd (anyPath_eq_false (by simpa using h2))

/-- C1, witness: the preservation theorem applied at a concrete state
(one stored entry, a fresh batch-added path), with the distinctness
hypothesis discharged. -/
theorem c1_witness :
    pathsDistinct [(⟨"/a", false⟩ : RepoEntry)] ∧
    pathsDistinct (batch_add_repositories (fun _ => true) (fun s => s)
      [⟨"/a", false⟩] ["/b"]).1 :=
  ⟨by decide,
   (c1_write_ops_preserve_path_distinct (fun _ => true) (fun s => s) (fun s => s)
     [⟨"/a", false⟩] (by decide)).2.1 ["/b"]⟩

/-- C5: adding a path whose normalized form already equals a stored
entry's `path` is rejected by the server add endpoint (an error result,
stored list untouched), by the GUI add (list returned unchanged), and by
the server batch-add (list unchanged, added count 0). -/
theorem c5_duplicate_add_rejected
    (isGit : String → Bool) (norm absF : String → String)
    (stored : List RepoEntry) (raw p : String)
    (hmemS : norm (pyStrip raw) ∈ pathsOf stored)
    (hmemG : absF p ∈ pathsOf stored) :
    (∃ s m, add_repository isGit norm stored raw = ApiResult.err s m)
    ∧ (gui_add_repository isGit absF stored (some p)).1 = stored
    ∧ (batch_add_repositories isGit norm stored [raw]).1 = stored
    ∧ (batch_add_repositories isGit norm stored [raw]).2.2 = 0 := by
  refine ⟨?_, ?_, ?_, ?_⟩
  · unfold add_repository
    split_ifs with h1 h2 h3
    · exact ⟨400, _, rfl⟩
    · exact ⟨400, _, rfl⟩
    · exact ⟨400, _, rfl⟩
    · exact absurd (anyPath_of_mem hmemS) h3
  · simp only [gui_add_repository]
    split_ifs with h1 h2
    · rfl
    · rfl
    · exact absurd (anyPath_of_mem hmemG) h2
  · exact (batchFold_skips isGit norm [raw] (stored, [], 0)
      (by intro q hq; rw [List.mem_singleton.mp hq]
          exact Or.inr (Or.inr hmemS))).1
  · exact (batchFold_skips isGit norm [raw] (stored, [], 0)
      (by intro q hq; rw [List.mem_singleton.mp hq]
          exact Or.inr (Or.inr hmemS))).2

/-- C5, witness: the rejection theorem applied at the concrete stored
list `[/a]` and duplicate path `/a`, with both membership hypotheses
discharged by evaluation. -/
theorem c5_witness :
    (∃ s m, add_repository (fun _ => true) (fun s => s) [⟨"/a", false⟩] "/a" =
      ApiResult.err s m) ∧
    (gui_add_repository (fun _ => true) (fun s => s) [⟨"/a", false⟩]
      (some "/a")).1 = [⟨"/a", false⟩] :=
  ⟨(c5_duplicate_add_rejected (fun _ => true) (fun s => s) (fun s => s)
      [⟨"/a", false⟩] "/a" "/a" (by decide) (by decide)).1,
   (c5_duplicate_add_rejected (fun _ => true) (fun s => s) (fun s => s)
      [⟨"/a", false⟩] "/a" "/a" (by decide) (by decide)).2.1⟩

/-- C8, counterexample: the empty string matches no stored entry's
`path`, yet the server DELETE endpoint answers it with a 400 error
instead of the unchanged list — the claim as stated (every non-matching
path yields the unchanged list with no error) is false at the empty
path. -/
theorem c8_counterexample :
    "" ∉ pathsOf [(⟨"/a", false⟩ : RepoEntry)] ∧
    remove_repository [⟨"/a", false⟩] "" = ApiResult.err 400 "Path is required" := by
  exact ⟨by decide, rfl⟩

/-- C8 (amended): for every non-empty path matching no stored entry the
server DELETE endpoint returns the unchanged list with no error, and the
GUI removal of tree selections matching no entry leaves the list
unchanged; an empty request path is instead rejected with a 400 error
before the list is touched (see the counterexample). -/
theorem c8_remove_missing_path_noop (stored : List RepoEntry)
    (raw : String) (treeSel : List String)
    (hraw : raw ≠ "") (hmem : raw ∉ pathsOf stored)
    (hsel : ∀ q ∈ treeSel, q ∉ pathsOf stored) (hne : treeSel ≠ []) :
    remove_repository stored raw = ApiResult.ok stored ∧
    (gui_remove_repository stored treeSel).1 = stored := by
  constructor
  · unfold remove_repository
    rw [if_neg hraw, filter_path_ne_of_not_mem hmem]
  · unfold gui_remove_repository
    rw [if_neg hne]
    exact guiRemoveFold treeSel stored hsel

/-- C8, witness: the no-op theorem applied at the concrete stored list
`[/a]` and the absent path `/b`, all hypotheses discharged by
evaluation. -/
theorem c8_witness :
    remove_repository [⟨"/a", false⟩] "/b" = ApiResult.ok [⟨"/a", false⟩] ∧
    (gui_remove_repository [⟨"/a", false⟩] ["/b"]).1 = [⟨"/a", false⟩] :=
  c8_remove_missing_path_noop [⟨"/a", false⟩] "/b" ["/b"]
    (by decide) (by decide) (by decide) (by decide)

/-- C9, counterexample: a path already in the stored list is NOT always
skipped without error — the git check runs before the duplicate check,
so a stored path that no longer passes it gets an error message appended
(though it is still not re-added). -/
theorem c9_counterexample :
    "/a" ∈ pathsOf [(⟨"/a", false⟩ : RepoEntry)] ∧
    (batch_add_repositories (fun _ => false) (fun s => s)
      [⟨"/a", false⟩] ["/a"]).2.1 = ["/a is not a git repository"] := by
  exact ⟨by decide, rfl⟩

/-- C9 (amended): batch-add never creates a duplicate `path` (each valid
new path is appended at most once even when repeated in the request);
when every non-empty request path passes the git check — in particular
every already-stored path — no error is reported; and re-applying the
same request to the resulting list adds zero entries and leaves the list
unchanged (idempotence). An already-stored path failing the git check
instead contributes an error message, but is still not re-added (see the
counterexample). -/
theorem c9_batch_add_idempotent (isGit : String → Bool)
    (norm : String → String) (stored : List RepoEntry) (paths : List String) :
    (pathsDistinct stored →
      pathsDistinct (batch_add_repositories isGit norm stored paths).1)
    ∧ ((∀ q ∈ paths, pyStrip q ≠ "" → isGit (norm (pyStrip q)) = true) →
        (batch_add_repositories isGit norm stored paths).2.1 = [])
    ∧ (batch_add_repositories isGit norm
        (batch_add_repositories isGit norm stored paths).1 paths).1 =
      (batch_add_repositories isGit norm stored paths).1
    ∧ (batch_add_repositories isGit norm
        (batch_add_repositories isGit norm stored paths).1 paths).2.2 = 0 := by
  have hcond : ∀ q ∈ paths, pyStrip q = "" ∨ isGit (norm (pyStrip q)) = false ∨
      norm (pyStrip q) ∈
        pathsOf (batch_add_repositories isGit norm stored paths).1 := by
    intro q hq
    by_cases hq1 : pyStrip q = ""
    · exact Or.inl hq1
    · by_cases hq2 : isGit (norm (pyStrip q)) = true
      · exact Or.inr (Or.inr
          (batchFold_reaches isGit norm paths (stored, [], 0) q hq hq1 hq2))
      · exact Or.inr (Or.inl (by simpa using hq2))
  refine ⟨?_, ?_, ?_, ?_⟩
  · intro hd
    exact batchFold_distinct isGit norm paths (stored, [], 0) hd
  · intro hall
    exact batchFold_no_errors isGit norm paths (stored, [], 0) hall
  · exact (batchFold_skips isGit norm paths
      ((batch_add_repositories isGit norm stored paths).1, [], 0) hcond).1
  · exact (batchFold_skips isGit norm paths
      ((batch_add_repositories isGit norm stored paths).1, [], 0) hcond).2

/-- C9, witness: the batch-add theorem applied at a concrete request
that repeats `/a`, with the distinctness and git hypotheses discharged
by evaluation. -/
theorem c9_witness :
    pathsDistinct (batch_add_repositories (fun _ => true) (fun s => s)
      [] ["/a", "/a"]).1 ∧
    (batch_add_repositories (fun _ => true) (fun s => s) [] ["/a", "/a"]).2.1 = [] :=
  ⟨(c9_batch_add_idempotent (fun _ => true) (fun s => s) [] ["/a", "/a"]).1
      (by decide),
   (c9_batch_add_idempotent (fun _ => true) (fun s => s) [] ["/a", "/a"]).2.1
      (by decide)⟩

/-- C3, counterexample: the file content `[]` is valid JSON but not the
defined schema; `data.get('repositories', [])` then raises an uncaught
`AttributeError` instead of returning the empty list, so the claim that
every malformed configuration file loads as the empty list is false. -/
theorem c3_counterexample :
    load_repositories (FileState.parsed (Json.arr [])) = LoadResult.raised ∧
    LoadResult.raised ≠ LoadResult.ok (Json.arr []) :=
  ⟨rfl, fun h => LoadResult.noConfusion h⟩

/-- C3 (amended): a missing file, an unreadable file and syntactically
invalid JSON each load as the empty list; a parsed JSON object yields
its `repositories` value (defaulting to the empty list, whatever that
value's shape); but a parsed document whose top level is not an object
raises an uncaught error instead of returning the empty list. -/
theorem c3_load_recovers_missing_and_invalid :
    load_repositories FileState.missing = LoadResult.ok (Json.arr [])
    ∧ load_repositories FileState.readError = LoadResult.ok (Json.arr [])
    ∧ load_repositories FileState.invalidJson = LoadResult.ok (Json.arr [])
    ∧ (∀ kvs, load_repositories (FileState.parsed (Json.obj kvs)) =
        LoadResult.ok ((lookupKey kvs "repositories").getD (Json.arr [])))
    ∧ (∀ j : Json, (∀ kvs, j ≠ Json.obj kvs) →
        load_repositories (FileState.parsed j) = LoadResult.raised) := by
  refine ⟨rfl, rfl, rfl, fun _ => rfl, ?_⟩
  intro j hj
  cases j with
  | obj kvs => exact absurd rfl (hj kvs)
  | null => rfl
  | bool b => rfl
  | num n => rfl
  | str s => rfl
  | arr xs => rfl

/-- C3, witness: the load theorem applied at the concrete non-object
document `"oops"`, its hypothesis discharged by constructor
disjointness. -/
theorem c3_witness :
    load_repositories (FileState.parsed (Json.str "oops")) = LoadResult.raised :=
  c3_load_recovers_missing_and_invalid.2.2.2.2 (Json.str "oops")
    (fun _ h => Json.noConfusion h)

/-- C6: saving any schema-conforming repository list and loading it back
returns exactly the JSON array that encodes the saved list, and that
array decodes back to the original list — load after save is the
identity on schema-conforming lists. -/
theorem c6_save_load_roundtrip (rs : List RepoEntry) :
    load_repositories (save_repositories rs) =
      LoadResult.ok (Json.arr (rs.map encodeEntry))
    ∧ decodeEntries (rs.map encodeEntry) = some rs := by
  constructor
  · simp [load_repositories, save_repositories, lookupKey]
  · induction rs with
    | nil => rfl
    | cons r rest ih => simp [decodeEntries, decodeEntry, encodeEntry, ih]

/-- C7: when another live process holds the exclusive lock, the single
non-blocking acquisition attempt of `SingleInstance.__enter__` surfaces
the already-running notification and exits with code 1 (non-zero),
having made exactly one lock attempt — no retry. -/
theorem c7_lock_contention_fatal (outcome : FlockOutcome)
    (h : outcome = FlockOutcome.held) :
    singleInstanceEnter outcome = (EnterResult.exited 1 true, 1) ∧
    (1 : Nat) ≠ 0 := by
  subst h
  exact ⟨rfl, one_ne_zero⟩

/-- C7, witness: the contention theorem applied at the held-lock
outcome. -/
theorem c7_witness :
    singleInstanceEnter FlockOutcome.held = (EnterResult.exited 1 true, 1) ∧
    (1 : Nat) ≠ 0 :=
  c7_lock_contention_fatal FlockOutcome.held rfl

/-- C10, counterexample: for the empty folder path (whose absolute,
user-expanded form here is `/tmp/x`, outside the home directory) the
endpoint answers 400 `Folder path is required` before normalizing, not
the 403 access-denied error the claim requires for every such path. -/
theorem c10_counterexample :
    startsWithStr ((⟨fun _ => "/tmp/x", "/home/u", fun _ => true, fun _ => true,
      fun s => s, fun _ => []⟩ : ScanEnv).norm "") "/home/u" = false ∧
    scan_repositories ⟨fun _ => "/tmp/x", "/home/u", fun _ => true, fun _ => true,
      fun s => s, fun _ => []⟩ "" =
      (ScanResp.errResp 400 "Folder path is required", []) := by
  exact ⟨rfl, rfl⟩

/-- C10 (amended): for every folder path that is non-empty after
stripping and whose normalized (absolute, user-expanded) form does not
start with the home directory, the scan endpoint returns the 403
access-denied error and lists no directory; an empty or whitespace-only
path is instead rejected 400 before normalization (see the
counterexample). -/
theorem c10_outside_home_denied (env : ScanEnv) (raw : String)
    (h1 : pyStrip raw ≠ "")
    (h2 : startsWithStr (env.norm (pyStrip raw)) env.home = false) :
    scan_repositories env raw =
      (ScanResp.errResp 403 "Access denied: Cannot scan outside home directory",
       []) := by
  unfold scan_repositories
  rw [if_neg h1, if_pos h2]

/-- C10, witness: the denial theorem applied at a concrete environment
whose normalization maps the request to `/etc/passwd`, hypotheses
discharged by evaluation. -/
theorem c10_witness :
    scan_repositories ⟨fun s => s, "/home/u", fun _ => true, fun _ => true,
      fun s => s, fun _ => []⟩ "/etc/passwd" =
      (ScanResp.errResp 403 "Access denied: Cannot scan outside home directory",
       []) :=
  c10_outside_home_denied
    ⟨fun s => s, "/home/u", fun _ => true, fun _ => true, fun s => s, fun _ => []⟩
    "/etc/passwd" (by decide) (by decide)

lemma runBatch_missing (env : ExecEnv) (h : env.cmdExists = false)
    (p : String) (rest : List String) :
    runBatchServer env (p :: rest) = ([], [], [p], true) := by
  simp [runBatchServer, h]

lemma runBatch_present (env : ExecEnv) (h : env.cmdExists = true)
    (repos : List String) :
    (runBatchServer env repos).2.2.1 = repos ∧
    (runBatchServer env repos).2.2.2 = false ∧
    ∀ q ∈ repos, env.run q = RunOutcome.timeout →
      String.append q ": Timeout" ∈ (runBatchServer env repos).2.1 := by
  induction repos with
  | nil => exact ⟨rfl, rfl, fun q hq => absurd hq (List.not_mem_nil q)⟩
  | cons p rest ih =>
    rcases ih with ⟨ha, hb, hc⟩
    cases hrun : env.run p with
    | success =>
      refine ⟨?_, ?_, ?_⟩
      · simp [runBatchServer, h, hrun, ha]
      · simp [runBatchServer, h, hrun, hb]
      · intro q hq ht
        rcases List.mem_cons.mp hq with rfl | hq'
        · rw [hrun] at ht; exact RunOutcome.noConfusion ht
        · simpa [runBatchServer, h, hrun] using hc q hq' ht
    | fail e =>
      refine ⟨?_, ?_, ?_⟩
      · simp [runBatchServer, h, hrun, ha]
      · simp [runBatchServer, h, hrun, hb]
      · intro q hq ht
        rcases List.mem_cons.mp hq with rfl | hq'
        · rw [hrun] at ht; exact RunOutcome.noConfusion ht
        · simp only [runBatchServer, h, hrun, if_true]
          exact List.mem_cons_of_mem _ (hc q hq' ht)
    | timeout =>
      refine ⟨?_, ?_, ?_⟩
      · simp [runBatchServer, h, hrun, ha]
      · simp [runBatchServer, h, hrun, hb]
      · intro q hq ht
        rcases List.mem_cons.mp hq with rfl | hq'
        · simp [runBatchServer, h, hrun]
        · simp only [runBatchServer, h, hrun, if_true]
          exact List.mem_cons_of_mem _ (hc q hq' ht)

lemma guiLoop_missing (env : ExecEnv) (h : env.cmdExists = false)
    (verb p : String) (rest : List String) :
    guiWorkLoop env verb (p :: rest) =
      ([.errorD "Error"
        "command not found. Please ensure it is installed and in your PATH."],
       [p], true) := by
  simp [guiWorkLoop, h]

lemma guiLoop_present (env : ExecEnv) (h : env.cmdExists = true)
    (verb : String) (sel : List String) :
    (guiWorkLoop env verb sel).2.1 = sel ∧
    (guiWorkLoop env verb sel).2.2 = false ∧
    ∀ q ∈ sel, env.run q = RunOutcome.timeout →
      Dialog.errorD "Error" (String.append "Timeout " (String.append verb
        (String.append "ing work on " q))) ∈ (guiWorkLoop env verb sel).1 := by
  induction sel with
  | nil => exact ⟨rfl, rfl, fun q hq => absurd hq (List.not_mem_nil q)⟩
  | cons p rest ih =>
    rcases ih with ⟨ha, hb, hc⟩
    cases hrun : env.run p with
    | success =>
      refine ⟨?_, ?_, ?_⟩
      · simp [guiWorkLoop, h, hrun, ha]
      · simp [guiWorkLoop, h, hrun, hb]
      · intro q hq ht
        rcases List.mem_cons.mp hq with rfl | hq'
        · rw [hrun] at ht; exact RunOutcome.noConfusion ht
        · simpa [guiWorkLoop, h, hrun] using hc q hq' ht
    | fail e =>
      refine ⟨?_, ?_, ?_⟩
      · simp [guiWorkLoop, h, hrun, ha]
      · simp [guiWorkLoop, h, hrun, hb]
      · intro q hq ht
        rcases List.mem_cons.mp hq with rfl | hq'
        · rw [hrun] at ht; exact RunOutcome.noConfusion ht
        · simp only [guiWorkLoop, h, hrun, if_true]
          exact List.mem_cons_of_mem _ (hc q hq' ht)
    | timeout =>
      refine ⟨?_, ?_, ?_⟩
      · simp [guiWorkLoop, h, hrun, ha]
      · simp [guiWorkLoop, h, hrun, hb]
      · intro q hq ht
        rcases List.mem_cons.mp hq with rfl | hq'
        · simp [guiWorkLoop, h, hrun]
        · simp only [guiWorkLoop, h, hrun, if_true]
          exact List.mem_cons_of_mem _ (hc q hq' ht)

/-- C2, counterexample: with the external command missing, the server
batch for `[/a, /b]` attempts only `/a` — the handler returns a single
500 error at the first `FileNotFoundError` instead of reporting
per-repository and continuing, so `/b` is never attempted and the claim
is false. -/
theorem c2_counterexample :
    (start_work ⟨false, fun _ => RunOutcome.success⟩ ["/a", "/b"]).2 = ["/a"] ∧
    "/b" ∉ (start_work ⟨false, fun _ => RunOutcome.success⟩ ["/a", "/b"]).2 := by
  exact ⟨rfl, by decide⟩

/-- C2 (amended): when the external command exists, a timeout on one
repository is reported (a per-repository error string in the server
response, an error dialog in the GUI) and every repository of the batch
is still attempted; when the command is missing, both front-ends abort
the batch at the first repository with a single command-not-found error
and the remaining repositories are not attempted (see the
counterexample). -/
theorem c2_timeout_continues_notfound_aborts (env : ExecEnv)
    (cn verb : String) (repos : List String) (grepos : List RepoEntry)
    (p : String) (rest : List String) :
    (env.cmdExists = true → repos ≠ [] →
      ∃ resp, (work_endpoint env cn repos).1 = ApiResult.ok resp ∧
        (work_endpoint env cn repos).2 = repos ∧
        ∀ q ∈ repos, env.run q = RunOutcome.timeout →
          String.append q ": Timeout" ∈ resp.errors)
    ∧ (env.cmdExists = false →
        work_endpoint env cn (p :: rest) =
          (ApiResult.err 500 (String.append cn
            " command not found. Please ensure it is installed and in your PATH."),
           [p]))
    ∧ (env.cmdExists = true → get_selected_repositories grepos ≠ [] →
        (gui_work env verb grepos).2 = get_selected_repositories grepos ∧
        ∀ q ∈ get_selected_repositories grepos,
          env.run q = RunOutcome.timeout →
          Dialog.errorD "Error" (String.append "Timeout " (String.append verb
            (String.append "ing work on " q))) ∈ (gui_work env verb grepos).1)
    ∧ (env.cmdExists = false → get_selected_repositories grepos = p :: rest →
        (gui_work env verb grepos).2 = [p]) := by
  refine ⟨?_, ?_, ?_, ?_⟩
  · intro h hne
    rcases runBatch_present env h repos with ⟨ha, hb, hc⟩
    refine ⟨⟨(runBatchServer env repos).1.length, (runBatchServer env repos).2.1,
      (runBatchServer env repos).1⟩, ?_, ?_, ?_⟩
    · unfold work_endpoint
      rw [if_neg hne, if_neg (by rw [hb]; exact Bool.false_ne_true)]
    · unfold work_endpoint
      rw [if_neg hne, if_neg (by rw [hb]; exact Bool.false_ne_true)]
      exact ha
    · exact hc
  · intro h
    unfold work_endpoint
    rw [if_neg (List.cons_ne_nil p rest), runBatch_missing env h p rest]
    rfl
  · intro h hne
    rcases guiLoop_present env h verb (get_selected_repositories grepos)
      with ⟨ha, hb, hc⟩
    constructor
    · unfold gui_work
      rw [if_neg hne, if_neg (by rw [hb]; exact Bool.false_ne_true)]
      exact ha
    · intro q hq ht
      unfold gui_work
      rw [if_neg hne, if_neg (by rw [hb]; exact Bool.false_ne_true)]
      exact List.mem_append_left _ (hc q hq ht)
  · intro h hsel
    unfold gui_work
    rw [if_neg (by rw [hsel]; exact List.cons_ne_nil p rest), hsel,
      guiLoop_missing env h verb p rest]
    rfl

/-- C2, witness: the amended theorem applied at a one-repository batch
that times out, hypotheses discharged by evaluation. -/
theorem c2_witness :
    ∃ resp,
      (work_endpoint ⟨true, fun _ => RunOutcome.timeout⟩ "startWork" ["/a"]).1 =
        ApiResult.ok resp ∧
      (work_endpoint ⟨true, fun _ => RunOutcome.timeout⟩ "startWork" ["/a"]).2 =
        ["/a"] ∧
      ∀ q ∈ ["/a"],
        (⟨true, fun _ => RunOutcome.timeout⟩ : ExecEnv).run q =
          RunOutcome.timeout →
        String.append q ": Timeout" ∈ resp.errors :=
  (c2_timeout_continues_notfound_aborts ⟨true, fun _ => RunOutcome.timeout⟩
    "startWork" "start" ["/a"] [] "/a" []).1 rfl (by decide)

/-- C4: when either date string fails `YYYY-MM-DD` parsing, the server
tabulate endpoint answers with a 400 error and spawns no subprocess
(with the invalid-date message whenever the selection and both date
fields are non-empty), and the GUI tabulate action spawns no subprocess
and, when some repository is selected, shows the invalid-date error
dialog; conversely, either front-end spawns the `tabulateWork` command
only when both (stripped, for the GUI) date strings parse. -/
theorem c4_invalid_date_rejected (outcome : RunOutcome)
    (expandAbs : String → String) (req : TabRequest)
    (grepos : List RepoEntry) (startRaw endRaw : String)
    (chosenOutput : Option String) :
    (¬ (validDate req.startDate = true ∧ validDate req.endDate = true) →
      (tabulate_work outcome expandAbs req).2 = none ∧
      ∃ m, (tabulate_work outcome expandAbs req).1 = TabResp.errResp 400 m)
    ∧ (req.repositories ≠ [] → req.startDate ≠ "" → req.endDate ≠ "" →
        ¬ (validDate req.startDate = true ∧ validDate req.endDate = true) →
        (tabulate_work outcome expandAbs req).1 =
          TabResp.errResp 400 "Invalid date format. Please use YYYY-MM-DD format.")
    ∧ (∀ c, (tabulate_work outcome expandAbs req).2 = some c →
        validDate req.startDate = true ∧ validDate req.endDate = true)
    ∧ (¬ (validDate (pyStrip startRaw) = true ∧
          validDate (pyStrip endRaw) = true) →
        (gui_tabulate_work outcome grepos startRaw endRaw chosenOutput).2 = none ∧
        (get_selected_repositories grepos ≠ [] →
          Dialog.errorD "Error" "Invalid date format. Please use YYYY-MM-DD format."
            ∈ (gui_tabulate_work outcome grepos startRaw endRaw chosenOutput).1))
    ∧ (∀ c,
        (gui_tabulate_work outcome grepos startRaw endRaw chosenOutput).2 =
          some c →
        validDate (pyStrip startRaw) = true ∧
        validDate (pyStrip endRaw) = true) := by
  refine ⟨?_, ?_, ?_, ?_, ?_⟩
  · intro hinv
    unfold tabulate_work
    by_cases h1 : req.repositories = []
    · rw [if_pos h1]; exact ⟨rfl, _, rfl⟩
    · rw [if_neg h1]
      by_cases h2 : req.startDate = "" ∨ req.endDate = ""
      · rw [if_pos h2]; exact ⟨rfl, _, rfl⟩
      · rw [if_neg h2, if_pos hinv]; exact ⟨rfl, _, rfl⟩
  · intro hr hs he hinv
    unfold tabulate_work
    rw [if_neg hr, if_neg (not_or.mpr ⟨hs, he⟩), if_pos hinv]
  · intro c hc
    unfold tabulate_work at hc
    by_cases h1 : req.repositories = []
    · rw [if_pos h1] at hc; exact absurd hc (by simp)
    · rw [if_neg h1] at hc
      by_cases h2 : req.startDate = "" ∨ req.endDate = ""
      · rw [if_pos h2] at hc; exact absurd hc (by simp)
      · rw [if_neg h2] at hc
        by_cases h3 : validDate req.startDate = true ∧ validDate req.endDate = true
        · exact h3
        · rw [if_pos h3] at hc; exact absurd hc (by simp)
  · intro hinv
    unfold gui_tabulate_work
    by_cases h1 : get_selected_repositories grepos = []
    · rw [if_pos h1]
      exact ⟨rfl, fun hne => absurd h1 hne⟩
    · rw [if_neg h1]
      have hv : validate_dates startRaw endRaw =
          (none,
           [.errorD "Error" "Invalid date format. Please use YYYY-MM-DD format."]) := by
        unfold validate_dates
        rw [if_neg hinv]
      rw [hv]
      exact ⟨rfl, fun _ => by simp⟩
  · intro c hc
    unfold gui_tabulate_work at hc
    by_cases h1 : get_selected_repositories grepos = []
    · rw [if_pos h1] at hc; exact absurd hc (by simp)
    · rw [if_neg h1] at hc
      by_cases h3 : validDate (pyStrip startRaw) = true ∧
          validDate (pyStrip endRaw) = true
      · exact h3
      · have hv : validate_dates startRaw endRaw =
            (none,
             [.errorD "Error" "Invalid date format. Please use YYYY-MM-DD format."]) := by
          unfold validate_dates
          rw [if_neg h3]
        rw [hv] at hc
        exact absurd hc (by simp)

/-- C4, witness: the rejection theorem applied at the concrete invalid
start date `2024-13-01`, the hypothesis discharged by evaluation. -/
theorem c4_witness :
    (tabulate_work RunOutcome.success (fun s => s)
      ⟨["/a"], "2024-13-01", "2024-01-02", "o.csv"⟩).2 = none ∧
    ∃ m, (tabulate_work RunOutcome.success (fun s => s)
      ⟨["/a"], "2024-13-01", "2024-01-02", "o.csv"⟩).1 = TabResp.errResp 400 m :=
  (c4_invalid_date_rejected RunOutcome.success (fun s => s)
    ⟨["/a"], "2024-13-01", "2024-01-02", "o.csv"⟩ [] "" "" none).1 (by decide)
